import Mathlib

/-!
# RESTAPI-C-: the statement executor of `server.cpp`

A shallow embedding of `PostgresDB::insert`, `PostgresDB::update`,
`PostgresDB::remove` and of the three POST handlers of `main`
(`src/RestAPI Client-Server-PSQL/src/server.cpp`), with theorems about
the statement text, the rendering and quoting of values, the transaction
of a call and the results.

The JSON library, the PostgreSQL client library and the HTTP library are
not part of the sources. What the code relies on is modelled here:

* `Json`, `dumpWith`, `positions`, `Json.ofPairs`: JSON values, their
  serializer, their iterators and the initializer-list constructor.
  Strings are sequences of Unicode characters, so the serializer's
  exception on invalid UTF-8 does not arise; floating-point numbers are
  left out.
* `Connection`: what the backend does during one call (the answer to
  `exec`, the outcome of `commit`, the conversion `as<long long>()`), as
  parameters; `Connection.quote` and the reader `unquote` follow the
  quoting convention the spec refers to.
* `Tx`: the state of the `pqxx::work` of a call and the operations invoked
  on it.
* `Response`: the status and body a handler fills in.

A thrown `std::exception` is an `Except.error` carrying its `what()`.
-/

namespace RestApi

/-! ## JSON values -/

/-- The `json` type of the source (`nlohmann::json`). Objects are kept as
the list of their entries in iteration order. Floating-point numbers are
left out. -/
inductive Json where
  | null : Json
  | boolean : Bool → Json
  | number : Int → Json
  | string : String → Json
  | array : List Json → Json
  | object : List (String × Json) → Json

/-- Lower-case hexadecimal digit. -/
def hexDigit (n : Nat) : Char :=
  if n < 10 then Char.ofNat (48 + n) else Char.ofNat (87 + n)

/-- What the serializer writes for one character of a string
(`dump_escaped` with `ensure_ascii = false`). -/
def escapeChar (c : Char) : List Char :=
  if c.toNat = 0x08 then ['\\', 'b']
  else if c.toNat = 0x09 then ['\\', 't']
  else if c.toNat = 0x0A then ['\\', 'n']
  else if c.toNat = 0x0C then ['\\', 'f']
  else if c.toNat = 0x0D then ['\\', 'r']
  else if c = '"' then ['\\', '"']
  else if c = '\\' then ['\\', '\\']
  else if c.toNat ≤ 0x1F then
    ['\\', 'u', '0', '0', hexDigit (c.toNat / 16), hexDigit (c.toNat % 16)]
  else [c]

/-- The serializer's `dump_escaped`: a string with its special characters
escaped, without the enclosing double quotes. -/
def dump_escaped (s : String) : String :=
  ⟨s.data.flatMap escapeChar⟩

mutual
/-- The serializer behind `json::dump`, at indent step 0. `pretty` is its
`pretty_print` flag: `dump()` runs it with `false`, `dump(0)` with `true`
(any non-negative indent selects pretty printing, and an indent of 0
inserts the line breaks without indentation). -/
def dumpWith (pretty : Bool) : Json → String
  | .null => "null"
  | .boolean b => if b then "true" else "false"
  | .number n => toString n
  | .string s => "\"" ++ dump_escaped s ++ "\""
  | .array [] => "[]"
  | .array (x :: xs) =>
      if pretty then "[\n" ++ dumpElems pretty (x :: xs) ++ "\n]"
      else "[" ++ dumpElems pretty (x :: xs) ++ "]"
  | .object [] => "\x7b\x7d"
  | .object (kv :: kvs) =>
      if pretty then "\x7b\n" ++ dumpMembers pretty (kv :: kvs) ++ "\n\x7d"
      else "\x7b" ++ dumpMembers pretty (kv :: kvs) ++ "\x7d"
/-- The array loop of the serializer: every element but the last is
followed by a comma (and a line break when pretty printing). -/
def dumpElems (pretty : Bool) : List Json → String
  | [] => ""
  | [x] => dumpWith pretty x
  | x :: y :: ys =>
      dumpWith pretty x ++ (if pretty then ",\n" else ",") ++ dumpElems pretty (y :: ys)
/-- The object loop of the serializer: each member is its quoted key, a
colon (with a space when pretty printing) and its value. -/
def dumpMembers (pretty : Bool) : List (String × Json) → String
  | [] => ""
  | [(k, v)] =>
      "\"" ++ dump_escaped k ++ (if pretty then "\": " else "\":") ++ dumpWith pretty v
  | (k, v) :: kv :: kvs =>
      "\"" ++ dump_escaped k ++ (if pretty then "\": " else "\":") ++ dumpWith pretty v
        ++ (if pretty then ",\n" else ",") ++ dumpMembers pretty (kv :: kvs)
end

/-- The call `dump(0)` of `insert` and `update`. -/
def dump0 (v : Json) : String := dumpWith true v

/-- The call `dump()` of the handlers. -/
def dump (v : Json) : String := dumpWith false v

/-! ## Iterating a JSON value -/

/-- One position of the iteration `for (auto it = values.begin(); it !=
values.end(); ++it)`: what `it.key()` gives (it throws unless the iterated
value is an object) and what `it.value()` gives. -/
structure Position where
  key : Except String String
  value : Json

/-- Message of the exception `it.key()` throws on a non-object. -/
def invalid_iterator_207 : String :=
  "[json.exception.invalid_iterator.207] cannot use key() for non-object iterators"

/-- The positions between `values.begin()` and `values.end()`: the members
of an object, the elements of an array, nothing for `null`, and the value
itself for any other scalar. -/
def positions : Json → List Position
  | .object kvs => kvs.map fun kv => ⟨.ok kv.1, kv.2⟩
  | .array xs => xs.map fun x => ⟨.error invalid_iterator_207, x⟩
  | .null => []
  | v => [⟨.error invalid_iterator_207, v⟩]

/-! ## The database connection -/

/-- A field of a result row: SQL NULL or its text. -/
abbrev Field := Option String

/-- A row of a result; `first` is what `r[0][0]` reads in the first row. -/
structure Row where
  first : Field
  rest : List Field

/-- What `txn.exec` returns (`pqxx::result`). -/
structure PqResult where
  rows : List Row
  affected_rows : Nat

/-- The behaviour of the backend behind `conn_` during one call: how it
answers a statement, whether the commit goes through, and what
`as<long long>()` makes of a field. An `Except.error` is a thrown
`std::exception` with that `what()`. -/
structure Connection where
  std_strings : Bool
  exec : String → Except String PqResult
  commit : Except String Unit
  as_long_long : Field → Except String Int

/-- Modelled from the spec: the escaping done by the connection's native
quoting primitive (the PostgreSQL client library is not in the sources).
Every quote is doubled; every backslash is doubled when the session does
not use standard-conforming strings. -/
def escChars (std_strings : Bool) : List Char → List Char
  | [] => []
  | c :: cs =>
      if c = '\'' then '\'' :: '\'' :: escChars std_strings cs
      else if c = '\\' ∧ std_strings = false then '\\' :: '\\' :: escChars std_strings cs
      else c :: escChars std_strings cs

/-- Modelled from the spec: `conn_.quote`, the connection's native quoting
primitive (the PostgreSQL client library is not in the sources): the
escaped text between two quotes. -/
def Connection.quote (c : Connection) (s : String) : String :=
  ⟨'\'' :: (escChars c.std_strings s.data ++ ['\''])⟩

/-! ## Building the statements -/

/-- The first loop of `insert` (lines 34-37): the vectors `cols` and
`vals`. An exception of `it.key()` leaves the loop. -/
def insertColsVals (c : Connection) :
    List Position → List String × List String → Except String (List String × List String)
  | [], acc => .ok acc
  | p :: ps, acc =>
      match p.key with
      | .error e => .error e
      | .ok k => insertColsVals c ps (acc.1 ++ [k], acc.2 ++ [c.quote (dump0 p.value)])

/-- One round of the second loop of `insert` (lines 42-44), at index `i`. -/
def insertStep (cols vals : List String) (acc : String × String) (i : Nat) : String × String :=
  ((if i ≠ 0 then (acc.1 ++ ", ", acc.2 ++ ", ") else acc).1 ++ cols.getD i "",
   (if i ≠ 0 then (acc.1 ++ ", ", acc.2 ++ ", ") else acc).2 ++ vals.getD i "")

/-- The second loop of `insert` (lines 41-45), over `i = 0 .. cols.size()-1`:
`col_part` and `val_part`. -/
def insertParts (cols vals : List String) : String × String :=
  (List.range cols.length).foldl (insertStep cols vals) ("", "")

/-- The statement text `sql` of `insert` (lines 32-48). -/
def insertSql (c : Connection) (table : String) (values : Json) : Except String String :=
  match insertColsVals c (positions values) ([], []) with
  | .error e => .error e
  | .ok (cols, vals) =>
      let parts := insertParts cols vals
      .ok ("INSERT INTO " ++ table ++ " (" ++ parts.1 ++ ") VALUES (" ++ parts.2
        ++ ") RETURNING id;")

/-- The loop of `update` (lines 68-74): `set_part` and the flag `first`. -/
def updateSetPart (c : Connection) :
    List Position → String × Bool → Except String (String × Bool)
  | [], acc => .ok acc
  | p :: ps, acc =>
      let set_part := if !acc.2 then acc.1 ++ ", " else acc.1
      match p.key with
      | .error e => .error e
      | .ok k =>
          updateSetPart c ps (set_part ++ k ++ " = " ++ c.quote (dump0 p.value), false)

/-- The statement text `sql` of `update` (lines 66-75). -/
def updateSql (c : Connection) (table : String) (values : Json) (where_clause : String) :
    Except String String :=
  match updateSetPart c (positions values) ("", true) with
  | .error e => .error e
  | .ok (set_part, _) =>
      .ok ("UPDATE " ++ table ++ " SET " ++ set_part ++ " WHERE " ++ where_clause ++ ";")

/-- The statement text `sql` of `remove` (line 90). -/
def removeSql (table : String) (where_clause : String) : String :=
  "DELETE FROM " ++ table ++ " WHERE " ++ where_clause ++ ";"

/-! ## Result objects -/

/-- The order of the keys of an object (`std::less<std::string>`):
lexicographic, character by character. -/
def keyLess : List Char → List Char → Bool
  | _, [] => false
  | [], _ :: _ => true
  | a :: as, b :: bs =>
      if a.toNat < b.toNat then true
      else if b.toNat < a.toNat then false
      else keyLess as bs

/-- The `emplace` of the sorted map behind a JSON object: the member goes
to its place in key order, and an existing member with the same key is
kept. -/
def emplace (k : String) (v : Json) : List (String × Json) → List (String × Json)
  | [] => [(k, v)]
  | kv :: rest =>
      if keyLess k.data kv.1.data then (k, v) :: kv :: rest
      else if k = kv.1 then kv :: rest
      else kv :: emplace k v rest

/-- The initializer-list constructor `json{{k1, v1}, {k2, v2}}`: the object
with these members, emplaced one after the other. -/
def Json.ofPairs (l : List (String × Json)) : Json :=
  .object (l.foldl (fun m kv => emplace kv.1 kv.2 m) [])

/-- The member of an object with the given key, if any. -/
def Json.member (j : Json) (key : String) : Option Json :=
  match j with
  | .object kvs => (kvs.find? fun kv => kv.1 == key).map Prod.snd
  | _ => none

/-- Line 53: `json{{"success", true}, {"id", id}}`. -/
def successId (id : Int) : Json :=
  Json.ofPairs [("success", .boolean true), ("id", .number id)]

/-- Line 55: `json{{"success", true}, {"rows", 1}}`. -/
def successRows : Json :=
  Json.ofPairs [("success", .boolean true), ("rows", .number 1)]

/-- Lines 80 and 95: `json{{"success", true}, {"rows_affected", rows}}`. -/
def successAffected (rows : Nat) : Json :=
  Json.ofPairs [("success", .boolean true), ("rows_affected", .number rows)]

/-- Lines 59, 83, 98 and the handlers: `json{{"success", false}, {"error", e.what()}}`. -/
def failure (what : String) : Json :=
  Json.ofPairs [("success", .boolean false), ("error", .string what)]

/-! ## Transactions -/

/-- The states of the transaction of one call. -/
inductive TxState where
  | Idle
  | TransactionOpen
  | Committed
  | Aborted
  deriving DecidableEq, Repr

/-- What a call does with its transaction: `pqxx::work txn(conn_)`,
`txn.exec(sql)`, `txn.commit()`, and `txn.abort()` together with the state
the transaction was in when abort was invoked. -/
inductive TxEvent where
  | begin : TxEvent
  | exec : String → TxEvent
  | commit : TxEvent
  | abort : TxState → TxEvent
  deriving DecidableEq, Repr

/-- The transaction of a call: its state and what has been done with it. -/
structure Tx where
  state : TxState
  events : List TxEvent
  deriving DecidableEq, Repr

/-- Message of the exception `txn.abort()` throws on a committed transaction. -/
def abort_committed : String :=
  "Attempt to abort previously committed transaction"

/-- `pqxx::work txn(conn_)`. -/
def Tx.begin (t : Tx) : Tx :=
  ⟨.TransactionOpen, t.events ++ [.begin]⟩

/-- `txn.exec(sql)`: the transaction after the call (the result is
`c.exec sql`). -/
def Tx.exec (t : Tx) (sql : String) : Tx :=
  ⟨t.state, t.events ++ [.exec sql]⟩

/-- `txn.commit()`: the transaction after the call. A commit that throws
leaves the transaction aborted. -/
def Tx.commit (t : Tx) (c : Connection) : Tx :=
  match c.commit with
  | .ok _ => ⟨.Committed, t.events ++ [.commit]⟩
  | .error _ => ⟨.Aborted, t.events ++ [.commit]⟩

/-- `txn.abort()`: an open transaction is rolled back, an aborted one is
left alone, and aborting a committed one throws. -/
def Tx.abort (t : Tx) : Except String Unit × Tx :=
  match t.state with
  | .Committed => (.error abort_committed, ⟨.Committed, t.events ++ [.abort .Committed]⟩)
  | .TransactionOpen => (.ok (), ⟨.Aborted, t.events ++ [.abort .TransactionOpen]⟩)
  | st => (.ok (), ⟨st, t.events ++ [.abort st]⟩)

/-- The destructor of `txn` when the call is left: a transaction still
open is rolled back. -/
def Tx.close (t : Tx) : Tx :=
  match t.state with
  | .TransactionOpen => ⟨.Aborted, t.events⟩
  | _ => t

/-- The transaction right after `pqxx::work txn(conn_)`. -/
def txn0 : Tx := Tx.begin ⟨.Idle, []⟩

/-- A finished call: the value it returned, or the `what()` of the
exception that left it, and its transaction. -/
structure Call where
  outcome : Except String Json
  tx : Tx

/-- The `catch (const std::exception &e)` block of the three operations:
`txn.abort(); return json{{"success", false}, {"error", e.what()}};`. -/
def catchBlock (what : String) (t : Tx) : Call :=
  match t.abort.1 with
  | .ok _ => ⟨.ok (failure what), t.abort.2.close⟩
  | .error e => ⟨.error e, t.abort.2.close⟩

/-- The `try` block of `insert` (lines 50-56). -/
def insertTry (c : Connection) (sql : String) (t : Tx) : Call :=
  match c.exec sql with
  | .error e => catchBlock e (t.exec sql)
  | .ok r =>
      match c.commit with
      | .error e => catchBlock e ((t.exec sql).commit c)
      | .ok _ =>
          match r.rows with
          | row :: _ =>
              match c.as_long_long row.first with
              | .error e => catchBlock e ((t.exec sql).commit c)
              | .ok id => ⟨.ok (successId id), ((t.exec sql).commit c).close⟩
          | [] => ⟨.ok successRows, ((t.exec sql).commit c).close⟩

/-- `PostgresDB::insert` (lines 29-61). -/
def insert (c : Connection) (table : String) (values : Json) : Call :=
  match insertSql c table values with
  | .error e => ⟨.error e, txn0.close⟩
  | .ok sql => insertTry c sql txn0

/-- The `try` block of `update` and of `remove` (lines 77-80 and 92-95). -/
def affectedTry (c : Connection) (sql : String) (t : Tx) : Call :=
  match c.exec sql with
  | .error e => catchBlock e (t.exec sql)
  | .ok r =>
      match c.commit with
      | .error e => catchBlock e ((t.exec sql).commit c)
      | .ok _ => ⟨.ok (successAffected r.affected_rows), ((t.exec sql).commit c).close⟩

/-- `PostgresDB::update` (lines 64-85). -/
def update (c : Connection) (table : String) (values : Json) (where_clause : String) : Call :=
  match updateSql c table values where_clause with
  | .error e => ⟨.error e, txn0.close⟩
  | .ok sql => affectedTry c sql txn0

/-- `PostgresDB::remove` (lines 88-100). -/
def remove (c : Connection) (table : String) (where_clause : String) : Call :=
  affectedTry c (removeSql table where_clause) txn0

/-! ## The HTTP handlers -/

/-- The response a handler fills in. A fresh response has status `-1`,
which the HTTP library sends as 200. -/
structure Response where
  status : Int
  body : String
  content_type : String
  deriving DecidableEq, Repr

/-- The response handed to a handler. -/
def Response.fresh : Response := ⟨-1, "", ""⟩

/-- `res.set_content(s, content_type)`. -/
def Response.set_content (res : Response) (s : String) (content_type : String) : Response :=
  ⟨res.status, s, content_type⟩

/-- The status the HTTP library sends for a handled request: 200 when the
handler left the status alone. -/
def Response.sent_status (res : Response) : Int :=
  if res.status = -1 then 200 else res.status

/-- Name of the type of a value, as the exceptions of the JSON library
print it. -/
def Json.type_name : Json → String
  | .null => "null"
  | .boolean _ => "boolean"
  | .number _ => "number"
  | .string _ => "string"
  | .array _ => "array"
  | .object _ => "object"

/-- `j.at(key)`: the member, or an exception. -/
def Json.atKey (j : Json) (key : String) : Except String Json :=
  match j with
  | .object kvs =>
      match kvs.find? fun kv => kv.1 == key with
      | some kv => .ok kv.2
      | none => .error ("[json.exception.out_of_range.403] key '" ++ key ++ "' not found")
  | _ => .error ("[json.exception.type_error.304] cannot use at() with " ++ j.type_name)

/-- `j.get<std::string>()`: the string, or an exception. -/
def Json.get_string (j : Json) : Except String String :=
  match j with
  | .string s => .ok s
  | _ => .error ("[json.exception.type_error.302] type must be string, but is " ++ j.type_name)

/-- The `catch` block of the handlers (lines 129-133, 145-149, 160-164). -/
def handlerCatch (what : String) (res : Response) : Response :=
  Response.set_content ⟨400, res.body, res.content_type⟩ (dump (failure what))
    "application/json"

/-- The handler of `POST /insert` (lines 122-134). `parse` is `json::parse`. -/
def post_insert (parse : String → Except String Json) (db : Connection) (body : String)
    (res : Response) : Response :=
  match parse body with
  | .error e => handlerCatch e res
  | .ok j =>
      match (j.atKey "table").bind Json.get_string with
      | .error e => handlerCatch e res
      | .ok table =>
          match j.atKey "values" with
          | .error e => handlerCatch e res
          | .ok values =>
              match (insert db table values).outcome with
              | .error e => handlerCatch e res
              | .ok out => res.set_content (dump out) "application/json"

/-- The handler of `POST /update` (lines 137-150). -/
def post_update (parse : String → Except String Json) (db : Connection) (body : String)
    (res : Response) : Response :=
  match parse body with
  | .error e => handlerCatch e res
  | .ok j =>
      match (j.atKey "table").bind Json.get_string with
      | .error e => handlerCatch e res
      | .ok table =>
          match j.atKey "values" with
          | .error e => handlerCatch e res
          | .ok values =>
              match (j.atKey "where").bind Json.get_string with
              | .error e => handlerCatch e res
              | .ok where_clause =>
                  match (update db table values where_clause).outcome with
                  | .error e => handlerCatch e res
                  | .ok out => res.set_content (dump out) "application/json"

/-- The handler of `POST /delete` (lines 153-165). -/
def post_delete (parse : String → Except String Json) (db : Connection) (body : String)
    (res : Response) : Response :=
  match parse body with
  | .error e => handlerCatch e res
  | .ok j =>
      match (j.atKey "table").bind Json.get_string with
      | .error e => handlerCatch e res
      | .ok table =>
          match (j.atKey "where").bind Json.get_string with
          | .error e => handlerCatch e res
          | .ok where_clause =>
              match (remove db table where_clause).outcome with
              | .error e => handlerCatch e res
              | .ok out => res.set_content (dump out) "application/json"

/-! ## Reading results and literals -/

/-- A success object: `"success"` is `true` and there is no `"error"`. -/
def SuccessObject (j : Json) : Prop :=
  j.member "success" = some (.boolean true) ∧ j.member "error" = none

/-- A failure object with the error message `msg`. -/
def FailureObject (j : Json) (msg : String) : Prop :=
  j.member "success" = some (.boolean false) ∧ j.member "error" = some (.string msg)

/-- The variant "success with generated id": success, an `"id"`, no row
count. -/
def SuccessWithId (j : Json) : Prop :=
  SuccessObject j ∧ (∃ id, j.member "id" = some (.number id)) ∧ j.member "rows" = none
    ∧ j.member "rows_affected" = none

/-- The variant "success with row count": success, a row count, no `"id"`. -/
def SuccessWithRows (j : Json) : Prop :=
  SuccessObject j ∧ j.member "id" = none
    ∧ ((∃ n, j.member "rows" = some (.number n))
        ∨ ∃ n, j.member "rows_affected" = some (.number n))

/-- The variant "failure with message": a failure object, with neither id
nor row count. -/
def FailureWithMessage (j : Json) : Prop :=
  (∃ msg, FailureObject j msg) ∧ j.member "id" = none ∧ j.member "rows" = none
    ∧ j.member "rows_affected" = none

/-- The assignment `col = esc(val)` of one member. -/
def assignment (c : Connection) (kv : String × Json) : String :=
  kv.1 ++ " = " ++ c.quote (dump0 kv.2)

/-- The transaction discipline of a finished call: one transaction was
opened, it ended committed or aborted, `abort` was not invoked on a
committed transaction, a success object is returned exactly when the
transaction is committed, and a failure object exactly when it is
aborted. -/
def Disciplined (call : Call) : Prop :=
  call.tx.events.count .begin = 1
  ∧ (call.tx.state = .Committed ∨ call.tx.state = .Aborted)
  ∧ TxEvent.abort .Committed ∉ call.tx.events
  ∧ ((∃ j, call.outcome = .ok j ∧ SuccessObject j) ↔ call.tx.state = .Committed)
  ∧ ((∃ j msg, call.outcome = .ok j ∧ FailureObject j msg) ↔ call.tx.state = .Aborted)

/-! ## Concrete backends and requests -/

/-- A backend with a serial `id`: every statement gives one row with the
id `1` and one affected row, and the commit goes through. -/
def serialBackend : Connection :=
  ⟨true, fun _ => .ok ⟨[⟨some "1", []⟩], 1⟩, .ok (),
    fun f => match f with
      | some "1" => .ok 1
      | _ => .error "Could not convert string to integer"⟩

/-- A backend whose table does not exist: every statement fails. -/
def missingTableBackend : Connection :=
  ⟨true, fun _ => .error "ERROR:  relation \"items\" does not exist", .ok (),
    fun _ => .error "Could not convert string to integer"⟩

/-- A backend whose table has a `uuid` column named `id`: the statement
and the commit go through, the returned id is not an integer. -/
def uuidBackend : Connection :=
  ⟨true, fun _ => .ok ⟨[⟨some "5f0c2a9e-8d1b-4c3a-9e7f-2b6d1a4c8e90", []⟩], 1⟩, .ok (),
    fun _ => .error "Could not convert string to integer: '5f0c2a9e-8d1b-4c3a-9e7f-2b6d1a4c8e90'"⟩

/-- The request `insert_req` of the client (client.cpp, lines 12-15). -/
def insert_req : Json :=
  .object [("table", .string "items"),
    ("values", .object [("name", .string "apple"), ("qty", .number 42)])]

/-- The request `upd_req` of the client (client.cpp, lines 25-29). -/
def upd_req : Json :=
  .object [("table", .string "items"), ("values", .object [("qty", .number 10)]),
    ("where", .string "name = 'apple'")]

/-- The request `del_req` of the client (client.cpp, lines 38-41). -/
def del_req : Json :=
  .object [("table", .string "items"), ("where", .string "name = 'apple'")]

/-- A stand-in for `json::parse` that knows the three bodies the client
sends (`insert_req.dump()`, `upd_req.dump()`, `del_req.dump()`). -/
def clientParse (body : String) : Except String Json :=
  if body = dump insert_req then .ok insert_req
  else if body = dump upd_req then .ok upd_req
  else if body = dump del_req then .ok del_req
  else .error "[json.exception.parse_error.101] parse error"

/-- A column name that closes the column list and the statement, and
brings a second statement. -/
def injectedKey : String :=
  "name) VALUES (1)" ++ ";" ++ " DROP TABLE items;" ++ " --"

/-! # Theorems -/

/-! ## Joining strings -/

theorem intercalate_go_append (sep : String) (l : List String) (x acc : String) :
    String.intercalate.go (x ++ acc) sep l = x ++ String.intercalate.go acc sep l := by
  induction l generalizing acc with
  | nil => simp [String.intercalate.go]
  | cons a l ih =>
      simp only [String.intercalate.go]
      rw [String.append_assoc, String.append_assoc, ih, String.append_assoc]

theorem intercalate_go_snoc (sep : String) (l : List String) (a acc : String) :
    String.intercalate.go acc sep (l ++ [a]) = String.intercalate.go acc sep l ++ sep ++ a := by
  induction l generalizing acc with
  | nil => simp [String.intercalate.go]
  | cons b l ih =>
      show String.intercalate.go (acc ++ sep ++ b) sep (l ++ [a]) = _
      rw [ih]
      rfl

theorem intercalate_snoc (sep : String) (l : List String) (a : String) (h : l ≠ []) :
    sep.intercalate (l ++ [a]) = sep.intercalate l ++ sep ++ a := by
  cases l with
  | nil => exact absurd rfl h
  | cons b l => simp only [List.cons_append, String.intercalate, intercalate_go_snoc]

theorem intercalate_cons_cons (sep a b : String) (l : List String) :
    sep.intercalate (a :: b :: l) = a ++ sep ++ sep.intercalate (b :: l) := by
  simp only [String.intercalate, String.intercalate.go]
  rw [String.append_assoc, intercalate_go_append, String.append_assoc,
    intercalate_go_append]

/-! ## The statement text of `insert` and `update` -/

theorem positions_object_cons (kv : String × Json) (kvs : List (String × Json)) :
    positions (.object (kv :: kvs)) = ⟨.ok kv.1, kv.2⟩ :: positions (.object kvs) := by
  simp [positions]

theorem insertColsVals_object (c : Connection) (kvs : List (String × Json))
    (acc : List String × List String) :
    insertColsVals c (positions (.object kvs)) acc
      = .ok (acc.1 ++ kvs.map Prod.fst, acc.2 ++ kvs.map fun kv => c.quote (dump0 kv.2)) := by
  induction kvs generalizing acc with
  | nil => simp [positions, insertColsVals]
  | cons kv kvs ih =>
      rw [positions_object_cons]
      simp only [insertColsVals]
      rw [ih]
      simp

theorem intercalate_take_succ (sep : String) (l : List String) (n : Nat) (h : n < l.length) :
    sep.intercalate (l.take (n + 1))
      = (if n ≠ 0 then sep.intercalate (l.take n) ++ sep else sep.intercalate (l.take n))
          ++ l.getD n "" := by
  rw [List.take_succ, List.getElem?_eq_getElem h, List.getD_eq_getElem l "" h]
  simp only [Option.toList]
  by_cases hn : n = 0
  · subst hn
    simp [String.intercalate, String.intercalate.go]
  · have hne : l.take n ≠ [] := by
      intro h0
      rcases List.take_eq_nil_iff.mp h0 with h1 | h1
      · exact hn h1
      · subst h1
        simp at h
    rw [intercalate_snoc sep _ _ hne]
    simp [hn]

theorem foldl_insertStep (cols vals : List String) (n : Nat) (hc : n ≤ cols.length)
    (hv : n ≤ vals.length) :
    (List.range n).foldl (insertStep cols vals) ("", "")
      = (", ".intercalate (cols.take n), ", ".intercalate (vals.take n)) := by
  induction n with
  | zero => simp [String.intercalate]
  | succ n ih =>
      rw [List.range_succ, List.foldl_append, ih (Nat.le_of_succ_le hc) (Nat.le_of_succ_le hv)]
      simp only [List.foldl_cons, List.foldl_nil, insertStep]
      rw [intercalate_take_succ ", " cols n hc, intercalate_take_succ ", " vals n hv]
      by_cases hn : n = 0 <;> simp [hn]

theorem insertParts_intercalate (cols vals : List String) (h : cols.length = vals.length) :
    insertParts cols vals = (", ".intercalate cols, ", ".intercalate vals) := by
  rw [insertParts, foldl_insertStep cols vals cols.length (Nat.le_refl _) (by omega)]
  rw [List.take_length, h, List.take_length]

theorem insertSql_object (c : Connection) (table : String) (kvs : List (String × Json)) :
    insertSql c table (.object kvs)
      = .ok ("INSERT INTO " ++ table ++ " (" ++ ", ".intercalate (kvs.map Prod.fst)
          ++ ") VALUES (" ++ ", ".intercalate (kvs.map fun kv => c.quote (dump0 kv.2))
          ++ ") RETURNING id;") := by
  simp only [insertSql, insertColsVals_object, List.nil_append]
  rw [insertParts_intercalate _ _ (by simp)]

/-! ## The runs of the `try` blocks -/

theorem insertTry_exec_error (c : Connection) (sql e : String) (h : c.exec sql = .error e) :
    insertTry c sql txn0
      = ⟨.ok (failure e), ⟨.Aborted, [.begin, .exec sql, .abort .TransactionOpen]⟩⟩ := by
  simp [insertTry, h, catchBlock, Tx.abort, Tx.exec, Tx.close, txn0, Tx.begin]

theorem insertTry_commit_error (c : Connection) (sql e : String) (r : PqResult)
    (h : c.exec sql = .ok r) (hc : c.commit = .error e) :
    insertTry c sql txn0
      = ⟨.ok (failure e), ⟨.Aborted, [.begin, .exec sql, .commit, .abort .Aborted]⟩⟩ := by
  simp [insertTry, h, hc, catchBlock, Tx.abort, Tx.exec, Tx.commit, Tx.close, txn0, Tx.begin]

theorem insertTry_no_row (c : Connection) (sql : String) (r : PqResult)
    (h : c.exec sql = .ok r) (hc : c.commit = .ok ()) (hr : r.rows = []) :
    insertTry c sql txn0
      = ⟨.ok successRows, ⟨.Committed, [.begin, .exec sql, .commit]⟩⟩ := by
  simp [insertTry, h, hc, hr, Tx.exec, Tx.commit, Tx.close, txn0, Tx.begin]

theorem insertTry_id (c : Connection) (sql : String) (r : PqResult) (row : Row)
    (rest : List Row) (id : Int)
    (h : c.exec sql = .ok r) (hc : c.commit = .ok ()) (hr : r.rows = row :: rest)
    (hid : c.as_long_long row.first = .ok id) :
    insertTry c sql txn0
      = ⟨.ok (successId id), ⟨.Committed, [.begin, .exec sql, .commit]⟩⟩ := by
  simp [insertTry, h, hc, hr, hid, Tx.exec, Tx.commit, Tx.close, txn0, Tx.begin]

theorem insertTry_conversion_error (c : Connection) (sql e : String) (r : PqResult) (row : Row)
    (rest : List Row)
    (h : c.exec sql = .ok r) (hc : c.commit = .ok ()) (hr : r.rows = row :: rest)
    (hid : c.as_long_long row.first = .error e) :
    insertTry c sql txn0
      = ⟨.error abort_committed,
          ⟨.Committed, [.begin, .exec sql, .commit, .abort .Committed]⟩⟩ := by
  simp [insertTry, h, hc, hr, hid, catchBlock, Tx.abort, Tx.exec, Tx.commit, Tx.close, txn0,
    Tx.begin]

theorem affectedTry_exec_error (c : Connection) (sql e : String) (h : c.exec sql = .error e) :
    affectedTry c sql txn0
      = ⟨.ok (failure e), ⟨.Aborted, [.begin, .exec sql, .abort .TransactionOpen]⟩⟩ := by
  simp [affectedTry, h, catchBlock, Tx.abort, Tx.exec, Tx.close, txn0, Tx.begin]

theorem affectedTry_commit_error (c : Connection) (sql e : String) (r : PqResult)
    (h : c.exec sql = .ok r) (hc : c.commit = .error e) :
    affectedTry c sql txn0
      = ⟨.ok (failure e), ⟨.Aborted, [.begin, .exec sql, .commit, .abort .Aborted]⟩⟩ := by
  simp [affectedTry, h, hc, catchBlock, Tx.abort, Tx.exec, Tx.commit, Tx.close, txn0, Tx.begin]

theorem affectedTry_committed (c : Connection) (sql : String) (r : PqResult)
    (h : c.exec sql = .ok r) (hc : c.commit = .ok ()) :
    affectedTry c sql txn0
      = ⟨.ok (successAffected r.affected_rows), ⟨.Committed, [.begin, .exec sql, .commit]⟩⟩ := by
  simp [affectedTry, h, hc, Tx.exec, Tx.commit, Tx.close, txn0, Tx.begin]

/-- The runs of the `try` block of `insert`, one for each way the backend
can answer. -/
theorem insertTry_cases (c : Connection) (sql : String) :
    (∃ e, c.exec sql = .error e ∧ insertTry c sql txn0
        = ⟨.ok (failure e), ⟨.Aborted, [.begin, .exec sql, .abort .TransactionOpen]⟩⟩)
    ∨ (∃ r e, c.exec sql = .ok r ∧ c.commit = .error e ∧ insertTry c sql txn0
        = ⟨.ok (failure e), ⟨.Aborted, [.begin, .exec sql, .commit, .abort .Aborted]⟩⟩)
    ∨ (∃ r, c.exec sql = .ok r ∧ c.commit = .ok () ∧ r.rows = [] ∧ insertTry c sql txn0
        = ⟨.ok successRows, ⟨.Committed, [.begin, .exec sql, .commit]⟩⟩)
    ∨ (∃ r row rest id, c.exec sql = .ok r ∧ c.commit = .ok () ∧ r.rows = row :: rest
        ∧ c.as_long_long row.first = .ok id ∧ insertTry c sql txn0
        = ⟨.ok (successId id), ⟨.Committed, [.begin, .exec sql, .commit]⟩⟩)
    ∨ (∃ r row rest e, c.exec sql = .ok r ∧ c.commit = .ok () ∧ r.rows = row :: rest
        ∧ c.as_long_long row.first = .error e ∧ insertTry c sql txn0
        = ⟨.error abort_committed,
            ⟨.Committed, [.begin, .exec sql, .commit, .abort .Committed]⟩⟩) := by
  cases h : c.exec sql with
  | error e => exact Or.inl ⟨e, rfl, insertTry_exec_error c sql e h⟩
  | ok r =>
      cases hc : c.commit with
      | error e => exact Or.inr (Or.inl ⟨r, e, rfl, rfl, insertTry_commit_error c sql e r h hc⟩)
      | ok u =>
          cases hr : r.rows with
          | nil =>
              exact Or.inr (Or.inr (Or.inl ⟨r, rfl, rfl, hr, insertTry_no_row c sql r h hc hr⟩))
          | cons row rest =>
              cases hid : c.as_long_long row.first with
              | ok id =>
                  exact Or.inr (Or.inr (Or.inr (Or.inl
                    ⟨r, row, rest, id, rfl, rfl, hr, hid, insertTry_id c sql r row rest id h hc hr hid⟩)))
              | error e =>
                  exact Or.inr (Or.inr (Or.inr (Or.inr
                    ⟨r, row, rest, e, rfl, rfl, hr, hid,
                      insertTry_conversion_error c sql e r row rest h hc hr hid⟩)))

/-- The runs of the `try` block of `update` and `remove`. -/
theorem affectedTry_cases (c : Connection) (sql : String) :
    (∃ e, c.exec sql = .error e ∧ affectedTry c sql txn0
        = ⟨.ok (failure e), ⟨.Aborted, [.begin, .exec sql, .abort .TransactionOpen]⟩⟩)
    ∨ (∃ r e, c.exec sql = .ok r ∧ c.commit = .error e ∧ affectedTry c sql txn0
        = ⟨.ok (failure e), ⟨.Aborted, [.begin, .exec sql, .commit, .abort .Aborted]⟩⟩)
    ∨ (∃ r, c.exec sql = .ok r ∧ c.commit = .ok () ∧ affectedTry c sql txn0
        = ⟨.ok (successAffected r.affected_rows),
            ⟨.Committed, [.begin, .exec sql, .commit]⟩⟩) := by
  cases h : c.exec sql with
  | error e => exact Or.inl ⟨e, rfl, affectedTry_exec_error c sql e h⟩
  | ok r =>
      cases hc : c.commit with
      | error e => exact Or.inr (Or.inl ⟨r, e, rfl, rfl, affectedTry_commit_error c sql e r h hc⟩)
      | ok u => exact Or.inr (Or.inr ⟨r, rfl, rfl, affectedTry_committed c sql r h hc⟩)

theorem insert_of_sql (c : Connection) (table : String) (values : Json) (sql : String)
    (h : insertSql c table values = .ok sql) :
    insert c table values = insertTry c sql txn0 := by
  simp [insert, h]

theorem update_of_sql (c : Connection) (table : String) (values : Json) (w sql : String)
    (h : updateSql c table values w = .ok sql) :
    update c table values w = affectedTry c sql txn0 := by
  simp [update, h]

theorem insert_events_start (c : Connection) (table : String) (values : Json) (sql : String)
    (h : insertSql c table values = .ok sql) :
    (insert c table values).tx.events.take 2 = [.begin, .exec sql] := by
  rw [insert_of_sql c table values sql h]
  rcases insertTry_cases c sql with ⟨_, _, h⟩ | ⟨_, _, _, _, h⟩ | ⟨_, _, _, _, h⟩
    | ⟨_, _, _, _, _, _, _, _, h⟩ | ⟨_, _, _, _, _, _, _, _, h⟩ <;> rw [h] <;> rfl

theorem update_events_start (c : Connection) (table : String) (values : Json) (w sql : String)
    (h : updateSql c table values w = .ok sql) :
    (update c table values w).tx.events.take 2 = [.begin, .exec sql] := by
  rw [update_of_sql c table values w sql h]
  rcases affectedTry_cases c sql with ⟨_, _, h⟩ | ⟨_, _, _, _, h⟩ | ⟨_, _, _, h⟩ <;> rw [h] <;> rfl

/-- C1: for every table name and every column->value map, with entries in
iteration order, `insert` builds (and executes) exactly
`INSERT INTO <table> (c1, ..., cn) VALUES (esc(v1), ..., esc(vn)) RETURNING id;`
with `esc(v) = quote(dump(v))`; the vectors `cols` and `vals` it joins have the
same length `n`, and the i-th value literal is that of the i-th column. -/
theorem insert_statement_text (c : Connection) (table : String)
    (kvs : List (String × Json)) :
    insertSql c table (.object kvs)
        = .ok ("INSERT INTO " ++ table ++ " (" ++ ", ".intercalate (kvs.map Prod.fst)
            ++ ") VALUES (" ++ ", ".intercalate (kvs.map fun kv => c.quote (dump0 kv.2))
            ++ ") RETURNING id;")
    ∧ (insert c table (.object kvs)).tx.events.take 2
        = [.begin, .exec ("INSERT INTO " ++ table ++ " (" ++ ", ".intercalate (kvs.map Prod.fst)
            ++ ") VALUES (" ++ ", ".intercalate (kvs.map fun kv => c.quote (dump0 kv.2))
            ++ ") RETURNING id;")]
    ∧ ∃ cols vals, insertColsVals c (positions (.object kvs)) ([], []) = .ok (cols, vals)
        ∧ cols.length = kvs.length ∧ vals.length = kvs.length
        ∧ ∀ i : Nat, cols[i]? = kvs[i]?.map Prod.fst
            ∧ vals[i]? = kvs[i]?.map fun kv => c.quote (dump0 kv.2) := by
  refine ⟨insertSql_object c table kvs,
    insert_events_start c table _ _ (insertSql_object c table kvs),
    kvs.map Prod.fst, kvs.map (fun kv => c.quote (dump0 kv.2)), ?_, by simp, by simp, ?_⟩
  · rw [insertColsVals_object]
    simp
  · intro i
    simp

/-! ### `update` -/

theorem updateSetPart_later (c : Connection) (kvs : List (String × Json)) (acc : String) :
    updateSetPart c (positions (.object kvs)) (acc, false)
      = .ok (String.intercalate.go acc ", " (kvs.map (assignment c)), false) := by
  induction kvs generalizing acc with
  | nil => simp [positions, updateSetPart, String.intercalate.go]
  | cons kv kvs ih =>
      rw [positions_object_cons]
      simp only [updateSetPart, Bool.not_false, if_true]
      rw [ih]
      simp [String.intercalate.go, assignment, String.append_assoc]

theorem updateSetPart_object (c : Connection) (kvs : List (String × Json)) :
    ∃ first, updateSetPart c (positions (.object kvs)) ("", true)
      = .ok (", ".intercalate (kvs.map (assignment c)), first) := by
  cases kvs with
  | nil => exact ⟨true, by simp [positions, updateSetPart, String.intercalate]⟩
  | cons kv kvs =>
      refine ⟨false, ?_⟩
      rw [positions_object_cons]
      simp only [updateSetPart, Bool.not_true]
      rw [updateSetPart_later]
      simp [String.intercalate, assignment, String.append_assoc]

theorem updateSql_object (c : Connection) (table w : String) (kvs : List (String × Json)) :
    updateSql c table (.object kvs) w
      = .ok ("UPDATE " ++ table ++ " SET " ++ ", ".intercalate (kvs.map (assignment c))
          ++ " WHERE " ++ w ++ ";") := by
  obtain ⟨first, h⟩ := updateSetPart_object c kvs
  simp only [updateSql, h]

/-- C2: for every table name, every column->value map with entries in
iteration order and every predicate, `update` builds (and executes) exactly
`UPDATE <table> SET c1 = esc(v1), ..., cn = esc(vn) WHERE <predicate>;`: the
assignments are joined by `", "` with no leading or trailing separator and
the predicate is inserted verbatim. -/
theorem update_statement_text (c : Connection) (table : String)
    (kvs : List (String × Json)) (p : String) :
    updateSql c table (.object kvs) p
        = .ok ("UPDATE " ++ table ++ " SET "
            ++ ", ".intercalate (kvs.map fun kv => kv.1 ++ " = " ++ c.quote (dump0 kv.2))
            ++ " WHERE " ++ p ++ ";")
    ∧ (update c table (.object kvs) p).tx.events.take 2
        = [.begin, .exec ("UPDATE " ++ table ++ " SET "
            ++ ", ".intercalate (kvs.map fun kv => kv.1 ++ " = " ++ c.quote (dump0 kv.2))
            ++ " WHERE " ++ p ++ ";")] :=
  ⟨updateSql_object c table p kvs, update_events_start c table _ p _ (updateSql_object c table p kvs)⟩

/-! ## Rendering values -/

theorem successId_eq (id : Int) :
    successId id = .object [("id", .number id), ("success", .boolean true)] := rfl

theorem successRows_eq :
    successRows = .object [("rows", .number 1), ("success", .boolean true)] := rfl

theorem successAffected_eq (n : Nat) :
    successAffected n = .object [("rows_affected", .number n), ("success", .boolean true)] := rfl

theorem failure_eq (what : String) :
    failure what = .object [("error", .string what), ("success", .boolean false)] := rfl

theorem successWithId_successId (id : Int) :
    (successId id).member "id" = some (.number id) ∧ SuccessWithId (successId id)
    ∧ ¬ SuccessWithRows (successId id) ∧ ¬ FailureWithMessage (successId id) := by
  rw [successId_eq]
  refine ⟨rfl, ⟨⟨rfl, rfl⟩, ⟨id, rfl⟩, rfl, rfl⟩, ?_, ?_⟩
  · rintro ⟨_, h, _⟩
    exact absurd h (by simp [Json.member, List.find?])
  · rintro ⟨⟨msg, h, _⟩, _⟩
    exact absurd h (by simp [Json.member, List.find?])

theorem successWithRows_successRows :
    successRows.member "rows" = some (.number 1) ∧ SuccessWithRows successRows
    ∧ ¬ SuccessWithId successRows ∧ ¬ FailureWithMessage successRows := by
  rw [successRows_eq]
  refine ⟨rfl, ⟨⟨rfl, rfl⟩, rfl, Or.inl ⟨1, rfl⟩⟩, ?_, ?_⟩
  · rintro ⟨_, ⟨id, h⟩, _⟩
    exact absurd h (by simp [Json.member, List.find?])
  · rintro ⟨⟨msg, h, _⟩, _⟩
    exact absurd h (by simp [Json.member, List.find?])

theorem successWithRows_successAffected (n : Nat) :
    (successAffected n).member "rows_affected" = some (.number n)
    ∧ SuccessWithRows (successAffected n)
    ∧ ¬ SuccessWithId (successAffected n) ∧ ¬ FailureWithMessage (successAffected n) := by
  rw [successAffected_eq]
  refine ⟨rfl, ⟨⟨rfl, rfl⟩, rfl, Or.inr ⟨n, rfl⟩⟩, ?_, ?_⟩
  · rintro ⟨_, ⟨id, h⟩, _⟩
    exact absurd h (by simp [Json.member, List.find?])
  · rintro ⟨⟨msg, h, _⟩, _⟩
    exact absurd h (by simp [Json.member, List.find?])

theorem failureWithMessage_failure (what : String) :
    FailureObject (failure what) what ∧ FailureWithMessage (failure what)
    ∧ ¬ SuccessWithId (failure what) ∧ ¬ SuccessWithRows (failure what) := by
  rw [failure_eq]
  refine ⟨⟨rfl, rfl⟩, ⟨⟨what, rfl, rfl⟩, rfl, rfl, rfl⟩, ?_, ?_⟩
  · rintro ⟨⟨h, _⟩, _⟩
    exact absurd h (by simp [Json.member, List.find?])
  · rintro ⟨⟨h, _⟩, _⟩
    exact absurd h (by simp [Json.member, List.find?])

theorem wellFormed_successAffected_aux (n : Nat) : SuccessObject (successAffected n) :=
  (successWithRows_successAffected n).2.1.1

theorem disciplined_failure (e : String) (evs : List TxEvent)
    (h1 : evs.count .begin = 1) (h2 : TxEvent.abort .Committed ∉ evs) :
    Disciplined ⟨.ok (failure e), ⟨.Aborted, evs⟩⟩ := by
  refine ⟨h1, Or.inr rfl, h2, ⟨?_, fun h => by simp at h⟩, ⟨fun _ => rfl, fun _ => ?_⟩⟩
  · rintro ⟨j, hj, hs⟩
    have : j = failure e := by
      simp only [Except.ok.injEq] at hj
      exact hj.symm
    subst this
    rw [failure_eq] at hs
    exact absurd hs.1 (by simp [Json.member, List.find?])
  · exact ⟨_, e, rfl, (failureWithMessage_failure e).1⟩

theorem disciplined_success (j : Json) (evs : List TxEvent) (hs : SuccessObject j)
    (h1 : evs.count .begin = 1) (h2 : TxEvent.abort .Committed ∉ evs) :
    Disciplined ⟨.ok j, ⟨.Committed, evs⟩⟩ := by
  refine ⟨h1, Or.inl rfl, h2, ⟨fun _ => rfl, fun _ => ⟨j, rfl, hs⟩⟩, ⟨?_, fun h => by simp at h⟩⟩
  rintro ⟨j', msg, hj, hf⟩
  have : j' = j := by
    simp only [Except.ok.injEq] at hj
    exact hj.symm
  subst this
  have h := hf.1
  rw [hs.1] at h
  exact absurd h (by simp)

/-- The sibling paths keep the discipline: every run of the `try` block of
`update` and `remove`, whatever the backend does. -/
theorem affectedTry_disciplined (c : Connection) (sql : String) :
    Disciplined (affectedTry c sql txn0) := by
  rcases affectedTry_cases c sql with ⟨e, _, h⟩ | ⟨_, e, _, _, h⟩ | ⟨r, _, _, h⟩
  · rw [h]
    exact disciplined_failure e _ (by simp [List.count_cons]) (by simp)
  · rw [h]
    exact disciplined_failure e _ (by simp [List.count_cons]) (by simp)
  · rw [h]
    exact disciplined_success _ _ (wellFormed_successAffected_aux r.affected_rows)
      (by simp [List.count_cons]) (by simp)

/-- The `try` block of `insert` keeps the discipline in every run in which
the conversion of the returned id does not throw. -/
theorem insertTry_disciplined (c : Connection) (sql : String)
    (hconv : ∀ r row rest, c.exec sql = .ok r → c.commit = .ok () → r.rows = row :: rest →
      ∃ id, c.as_long_long row.first = .ok id) :
    Disciplined (insertTry c sql txn0) := by
  rcases insertTry_cases c sql with ⟨e, _, h⟩ | ⟨_, e, _, _, h⟩ | ⟨_, _, _, _, h⟩
    | ⟨_, _, _, id, _, _, _, _, h⟩ | ⟨r, row, rest, e, hx, hc, hr, hid, _⟩
  · rw [h]
    exact disciplined_failure e _ (by simp [List.count_cons]) (by simp)
  · rw [h]
    exact disciplined_failure e _ (by simp [List.count_cons]) (by simp)
  · rw [h]
    exact disciplined_success _ _ successWithRows_successRows.2.1.1
      (by simp [List.count_cons]) (by simp)
  · rw [h]
    exact disciplined_success _ _ (successWithId_successId id).2.1.1
      (by simp [List.count_cons]) (by simp)
  · obtain ⟨id, hid2⟩ := hconv r row rest hx hc hr
    rw [hid] at hid2
    exact absurd hid2 (by simp)

/-- With an object as values, `update` and `remove` keep the discipline
whatever the backend does, and `insert` keeps it whenever the conversion of
the returned id does not throw. -/
theorem calls_disciplined (c : Connection) (table where_clause : String)
    (kvs : List (String × Json)) :
    Disciplined (update c table (.object kvs) where_clause)
    ∧ Disciplined (remove c table where_clause)
    ∧ ((∀ sql r row rest, c.exec sql = .ok r → c.commit = .ok () → r.rows = row :: rest →
          ∃ id, c.as_long_long row.first = .ok id) →
        Disciplined (insert c table (.object kvs))) := by
  refine ⟨?_, affectedTry_disciplined c _, ?_⟩
  · rw [update_of_sql c table _ where_clause _ (updateSql_object c table where_clause kvs)]
    exact affectedTry_disciplined c _
  · intro hconv
    rw [insert_of_sql c table _ _ (insertSql_object c table kvs)]
    exact insertTry_disciplined c _ (hconv _)

/-- C4 fails in `insert`: with a table whose `id` column is a `uuid`, the
statement is executed and committed, the conversion of the returned id
then throws inside the `try` block, and the `catch` block invokes `abort`
on the committed transaction. The call does not return the success result
although its transaction is committed: the exception of `abort` leaves the
call. -/
theorem insert_abort_after_commit :
    (insert uuidBackend "items" (.object [("name", .string "apple")])).tx
        = ⟨.Committed,
            [.begin, .exec "INSERT INTO items (name) VALUES ('\"apple\"') RETURNING id;",
              .commit, .abort .Committed]⟩
    ∧ (insert uuidBackend "items" (.object [("name", .string "apple")])).outcome
        = .error abort_committed
    ∧ ¬ Disciplined (insert uuidBackend "items" (.object [("name", .string "apple")])) := by
  refine ⟨by decide, rfl, ?_⟩
  rintro ⟨_, _, h, _⟩
  exact h (by decide)

/-! ## Row counts and generated ids -/

/-- Whatever object the core returns, a failure object included, the
handlers send it with the status they were handed: only their `catch`
block sets 400. -/
theorem handlers_forward_result (parse : String → Except String Json) (db : Connection)
    (body table where_clause : String) (j values out : Json) (res : Response)
    (hp : parse body = .ok j)
    (ht : (j.atKey "table").bind Json.get_string = .ok table) :
    (j.atKey "values" = .ok values → (insert db table values).outcome = .ok out →
        post_insert parse db body res = ⟨res.status, dump out, "application/json"⟩)
    ∧ (j.atKey "values" = .ok values →
        (j.atKey "where").bind Json.get_string = .ok where_clause →
        (update db table values where_clause).outcome = .ok out →
        post_update parse db body res = ⟨res.status, dump out, "application/json"⟩)
    ∧ ((j.atKey "where").bind Json.get_string = .ok where_clause →
        (remove db table where_clause).outcome = .ok out →
        post_delete parse db body res = ⟨res.status, dump out, "application/json"⟩) := by
  refine ⟨?_, ?_, ?_⟩
  · intro hv ho
    simp [post_insert, hp, ht, hv, ho, Response.set_content]
  · intro hv hw ho
    simp [post_update, hp, ht, hv, hw, ho, Response.set_content]
  · intro hw ho
    simp [post_delete, hp, ht, hw, ho, Response.set_content]

/-- C7 fails in the three handlers: for the client's requests against a
backend whose table does not exist, the core returns the failure object
with the backend's error text, and the handler sends it with the status
left untouched, which goes out as 200 and not as 400. -/
theorem failure_result_sent_with_200 :
    (insert missingTableBackend "items"
        (.object [("name", .string "apple"), ("qty", .number 42)])).outcome
      = .ok (failure "ERROR:  relation \"items\" does not exist")
    ∧ post_insert clientParse missingTableBackend (dump insert_req) Response.fresh
      = ⟨-1, "\x7b\"error\":\"ERROR:  relation \\\"items\\\" does not exist\",\"success\":false\x7d",
          "application/json"⟩
    ∧ post_update clientParse missingTableBackend (dump upd_req) Response.fresh
      = ⟨-1, "\x7b\"error\":\"ERROR:  relation \\\"items\\\" does not exist\",\"success\":false\x7d",
          "application/json"⟩
    ∧ post_delete clientParse missingTableBackend (dump del_req) Response.fresh
      = ⟨-1, "\x7b\"error\":\"ERROR:  relation \\\"items\\\" does not exist\",\"success\":false\x7d",
          "application/json"⟩
    ∧ (post_insert clientParse missingTableBackend (dump insert_req)
        Response.fresh).sent_status = 200
    ∧ (post_update clientParse missingTableBackend (dump upd_req)
        Response.fresh).sent_status = 200
    ∧ (post_delete clientParse missingTableBackend (dump del_req)
        Response.fresh).sent_status = 200
    ∧ (post_insert clientParse missingTableBackend "not json" Response.fresh).sent_status
        = 400 :=
  ⟨rfl, by decide, by decide, by decide, by decide, by decide, by decide, by decide⟩

/-! ## Column names -/

theorem intercalate_mem (sep k : String) (l : List String) (h : k ∈ l) :
    ∃ pre post, sep.intercalate l = pre ++ k ++ post := by
  induction l with
  | nil => simp at h
  | cons a l ih =>
      cases l with
      | nil =>
          have : k = a := by simpa using h
          subst this
          exact ⟨"", "", by simp [String.intercalate, String.intercalate.go]⟩
      | cons b l =>
          rw [intercalate_cons_cons]
          rcases List.mem_cons.mp h with h1 | h1
          · subst h1
            exact ⟨"", sep ++ sep.intercalate (b :: l), by simp [String.append_assoc]⟩
          · obtain ⟨pre, post, e⟩ := ih h1
            exact ⟨a ++ sep ++ pre, post, by rw [e]; simp [String.append_assoc]⟩

theorem intercalate_singleton (sep a : String) : sep.intercalate [a] = a := by
  simp [String.intercalate, String.intercalate.go]

/-- C10: the column names are copied into the statement as they are: every
key of the values map occurs verbatim in the statement of `insert` and in
that of `update`; and there is a single-entry map whose key puts into the
statement of `insert` a statement terminator and a second statement, with
no quote before them (none at all when the table name has none), so
outside any string literal. -/
theorem column_names_verbatim (c : Connection) (table p : String)
    (kvs : List (String × Json)) (k : String) (v : Json) (h : (k, v) ∈ kvs) :
    (∃ pre post, insertSql c table (.object kvs) = .ok (pre ++ k ++ post))
    ∧ (∃ pre post, updateSql c table (.object kvs) p = .ok (pre ++ k ++ post))
    ∧ ∃ value pre post,
        insertSql c table (.object [(injectedKey, value)])
          = .ok (pre ++ ";" ++ " DROP TABLE items;" ++ post)
        ∧ ('\'' ∉ table.data → '\'' ∉ pre.data)
        ∧ ∃ a b, injectedKey = a ++ ";" ++ " DROP TABLE items;" ++ b := by
  refine ⟨?_, ?_, ?_⟩
  · rw [insertSql_object]
    obtain ⟨pre, post, e⟩ := intercalate_mem ", " k (kvs.map Prod.fst)
      (List.mem_map.mpr ⟨(k, v), h, rfl⟩)
    refine ⟨"INSERT INTO " ++ table ++ " (" ++ pre,
      post ++ ") VALUES (" ++ ", ".intercalate (kvs.map fun kv => c.quote (dump0 kv.2))
        ++ ") RETURNING id;", ?_⟩
    rw [e]
    simp only [String.append_assoc]
  · rw [updateSql_object]
    obtain ⟨pre, post, e⟩ := intercalate_mem ", " (assignment c (k, v))
      (kvs.map (assignment c)) (List.mem_map.mpr ⟨(k, v), h, rfl⟩)
    refine ⟨"UPDATE " ++ table ++ " SET " ++ pre,
      " = " ++ c.quote (dump0 v) ++ post ++ " WHERE " ++ p ++ ";", ?_⟩
    rw [e]
    simp only [assignment, String.append_assoc]
  · refine ⟨.number 1, "INSERT INTO " ++ table ++ " (" ++ "name) VALUES (1)",
      " --" ++ ") VALUES (" ++ c.quote (dump0 (.number 1)) ++ ") RETURNING id;", ?_, ?_,
      "name) VALUES (1)", " --", rfl⟩
    · rw [insertSql_object]
      simp only [List.map_cons, List.map_nil, intercalate_singleton, injectedKey,
        String.append_assoc]
    · intro ht
      simp only [String.data_append, List.mem_append, not_or]
      exact ⟨⟨⟨by decide, ht⟩, by decide⟩, by decide⟩

/-- Witness of `column_names_verbatim`: the column `qty` of the client's
update. -/
theorem column_names_verbatim_witness :
    (("qty", Json.number 10) ∈ [("qty", Json.number 10)])
    ∧ ∃ pre post, updateSql serialBackend "items" (.object [("qty", .number 10)])
        "name = 'apple'" = .ok (pre ++ "qty" ++ post) :=
  ⟨List.mem_singleton.mpr rfl,
    (column_names_verbatim serialBackend "items" "name = 'apple'" [("qty", .number 10)]
      "qty" (.number 10) (List.mem_singleton.mpr rfl)).2.1⟩

end RestApi
